import Mathlib

/-!
Shallow embedding of the link-visualization core of the 3d-lab-viewer
repository: the curve solver (`midpoint`), the per-frame noise perturber,
the dash-offset animation, the EpicTube glow pulse, the per-link style
dispatch of `Link3D`, and the link mapping of `SceneInner`.

JavaScript numbers are modelled by real numbers; `x || d` on a number is
modelled by `if x = 0 then d else x`, and `s || d` on a string by
`if s = "" then d else s`, matching JS truthiness on the values the
configuration can carry in this model (no NaN in the real-number model).
three.js `Vector3.normalize` divides by `length() || 1`, so a zero-length
vector normalizes to the zero vector; this library behaviour is embedded
faithfully in `Vec3.normalize`.
-/

/-- A 3-component vector of real numbers, as three.js `Vector3`. -/
structure Vec3 where
  x : ℝ
  y : ℝ
  z : ℝ

/-- The zero vector. -/
def Vec3.zero : Vec3 := ⟨0, 0, 0⟩

/-- Componentwise sum, as three.js `add`. -/
def Vec3.add (a b : Vec3) : Vec3 := ⟨a.x + b.x, a.y + b.y, a.z + b.z⟩

/-- Componentwise difference, as three.js `sub` (`b.clone().sub(a)` is `sub b a`). -/
def Vec3.sub (a b : Vec3) : Vec3 := ⟨a.x - b.x, a.y - b.y, a.z - b.z⟩

/-- Scalar multiple of a vector. -/
def Vec3.smul (s : ℝ) (v : Vec3) : Vec3 := ⟨s * v.x, s * v.y, s * v.z⟩

/-- three.js `lerp`: `this += (v - this) * alpha`, componentwise. -/
def Vec3.lerp (a b : Vec3) (alpha : ℝ) : Vec3 :=
  ⟨a.x + (b.x - a.x) * alpha, a.y + (b.y - a.y) * alpha, a.z + (b.z - a.z) * alpha⟩

/-- three.js `addScaledVector`: `this += v * s`, componentwise. -/
def Vec3.addScaled (a v : Vec3) (s : ℝ) : Vec3 :=
  ⟨a.x + v.x * s, a.y + v.y * s, a.z + v.z * s⟩

/-- three.js `cross` product `a × b`. -/
def Vec3.cross (a b : Vec3) : Vec3 :=
  ⟨a.y * b.z - a.z * b.y, a.z * b.x - a.x * b.z, a.x * b.y - a.y * b.x⟩

/-- three.js `length`: `sqrt(x*x + y*y + z*z)`. -/
noncomputable def Vec3.length (v : Vec3) : ℝ :=
  Real.sqrt (v.x * v.x + v.y * v.y + v.z * v.z)

/-- three.js `normalize`: `divideScalar(this.length() || 1)`; a zero-length
vector is divided by 1 and therefore stays the zero vector. -/
noncomputable def Vec3.normalize (v : Vec3) : Vec3 :=
  if Vec3.length v = 0 then v else Vec3.smul (1 / Vec3.length v) v

/-- The world up constant `UP = (0,1,0)` of `Link3D`. -/
def UP : Vec3 := ⟨0, 1, 0⟩

/-- The world X axis, named by the spec as an example fallback perpendicular. -/
def worldX : Vec3 := ⟨1, 0, 0⟩

/-- Curve bend mode of a link: `straight`, `up`, `side` or `arc`. -/
inductive Mode where
  | straight
  | up
  | side
  | arc
deriving DecidableEq

/-- Lift coefficient of the world-up component added by `midpoint` for each
mode: `0.6` for `up`, `0.45` for `arc`, `0` otherwise. -/
def liftCoef (mode : Mode) : ℝ :=
  match mode with
  | Mode.up => 0.6
  | Mode.arc => 0.45
  | Mode.side => 0
  | Mode.straight => 0

/-- The curve solver `midpoint(from, to, mode, bend)` of
`Interactive3DNodeShowcase.jsx` (lines 2264-2282): midpoint lerp, early
return on `!bend || mode === "straight"`, otherwise an offset along the
world up and/or the normalized cross of the direction with world up. -/
noncomputable def Link3D.midpoint (fromP toP : Vec3) (mode : Mode) (bend : ℝ) : Vec3 :=
  let a := fromP
  let b := toP
  let m := Vec3.lerp a b 0.5
  if bend = 0 ∨ mode = Mode.straight then m
  else
    let dir := Vec3.sub b a
    let side := Vec3.normalize (Vec3.cross dir UP)
    let lift := UP
    match mode with
    | Mode.up => Vec3.addScaled m lift (Vec3.length dir * bend * 0.6)
    | Mode.side => Vec3.addScaled m side (Vec3.length dir * bend * 0.6)
    | Mode.arc =>
        Vec3.addScaled (Vec3.addScaled m lift (Vec3.length dir * bend * 0.45)) side
          (Vec3.length dir * bend * 0.45)
    | Mode.straight => m

open Classical in
/-- Follows the spec wording for claim C4 only, to be compared with
`midpoint`: when the cross product of the direction with world up is the
zero vector, the side vector falls back to the world X axis instead of
being normalized. -/
noncomputable def midpointSpecFallback (fromP toP : Vec3) (mode : Mode) (bend : ℝ) : Vec3 :=
  let a := fromP
  let b := toP
  let m := Vec3.lerp a b 0.5
  if bend = 0 ∨ mode = Mode.straight then m
  else
    let dir := Vec3.sub b a
    let side :=
      if Vec3.cross dir UP = Vec3.zero then worldX else Vec3.normalize (Vec3.cross dir UP)
    let lift := UP
    match mode with
    | Mode.up => Vec3.addScaled m lift (Vec3.length dir * bend * 0.6)
    | Mode.side => Vec3.addScaled m side (Vec3.length dir * bend * 0.6)
    | Mode.arc =>
        Vec3.addScaled (Vec3.addScaled m lift (Vec3.length dir * bend * 0.45)) side
          (Vec3.length dir * bend * 0.45)
    | Mode.straight => m

/-- The quadratic bezier curve object `bezierRef.current` of `Link3D`
(`v0` start, `v1` control, `v2` end), mutated in place each frame. -/
structure Bezier where
  v0 : Vec3
  v1 : Vec3
  v2 : Vec3

/-- Per-link mutable render state of `Link3D`: the live control point
`midRef.current` and the persistent bezier curve `bezierRef.current`. -/
structure LinkState where
  mid : Vec3
  curve : Bezier

/-- The effective noise frequency: `noiseFrq || 1.5` in the source, which
substitutes `1.5` when the configured frequency is `0` (falsy). -/
noncomputable def effFreq (f : ℝ) : ℝ := if f = 0 then 1.5 else f

/-- The trig noise offset of `Link3D` at already-scaled time `tf`
(`tf = elapsed * effFreq f` in the source). -/
noncomputable def noiseOffset (tf amp : ℝ) (fromP toP : Vec3) : Vec3 :=
  ⟨Real.sin (tf * 1.13 + fromP.x) * amp,
   Real.cos (tf * 0.87 + toP.y) * amp,
   Real.sin (tf * 1.41 + fromP.z) * amp⟩

/-- The noise `useFrame` callback of `Link3D` (lines 2328-2343): returns
immediately when `animate` is false; when `noiseAmp > 0` it sets the live
mid to `baseMid + offset` and copies it into the curve control point `v1`;
otherwise it leaves the state untouched. -/
noncomputable def noiseFrame (animate : Bool) (t amp freq : ℝ) (fromP toP baseMid : Vec3)
    (st : LinkState) : LinkState :=
  if animate = false then st
  else if 0 < amp then
    let tf := t * (if freq = 0 then 1.5 else freq)
    let m : Vec3 :=
      ⟨baseMid.x + Real.sin (tf * 1.13 + fromP.x) * amp,
       baseMid.y + Real.cos (tf * 0.87 + toP.y) * amp,
       baseMid.z + Real.sin (tf * 1.41 + fromP.z) * amp⟩
    ⟨m, ⟨st.curve.v0, m, st.curve.v2⟩⟩
  else st

/-- The dashed-line `useFrame` callback of `Link3D` (lines 2348-2357),
projected to the scalar `dashOffset.current`: unchanged unless `animate`
is true and the style is `"dashed"` and `dash.animate` is not `false`,
in which case it is decremented by `(speed || 1) * (delta * 0.8)`. -/
noncomputable def dashFrame (animate : Bool) (style : String) (dashAnimate : Option Bool)
    (speed delta offset : ℝ) : ℝ :=
  if animate = false ∨ style ≠ "dashed" then offset
  else if dashAnimate = some false then offset
  else offset - (if speed = 0 then 1 else speed) * (delta * 0.8)

/-- The glow pulse of `EpicTube` (line 27):
`animate ? 0.85 + sin(t*speed*1.7)*0.15 : 1.0`. -/
noncomputable def pulse (animate : Bool) (t speed : ℝ) : ℝ :=
  if animate then 0.85 + Real.sin (t * speed * 1.7) * 0.15 else 1.0

/-- The effective glow: `glow || 1.4` in the source, substituting `1.4`
when the configured glow is `0` (falsy). -/
noncomputable def effGlow (glow : ℝ) : ℝ := if glow = 0 then 1.4 else glow

/-- The selection factor `selected ? 1.2 : 1` of `EpicTube`. -/
noncomputable def selFactor (selected : Bool) : ℝ := if selected then 1.2 else 1

/-- The emissive intensity written by `EpicTube` each frame (line 28):
`(glow || 1.4) * pulse * (selected ? 1.2 : 1)`. -/
noncomputable def emissiveIntensity (animate : Bool) (t speed glow : ℝ) (selected : Bool) : ℝ :=
  (if glow = 0 then 1.4 else glow)
    * (if animate then 0.85 + Real.sin (t * speed * 1.7) * 0.15 else 1.0)
    * (if selected then 1.2 else 1)

/-- String-or-default, as the JS `s || d` used on style, color and shape:
`none` and the empty string are falsy. -/
def strOr (o : Option String) (d : String) : String :=
  match o with
  | none => d
  | some s => if s = "" then d else s

/-- `particles` sub-configuration of a link. -/
structure ParticlesCfg where
  count : Option ℕ
  size : Option ℝ
  color : Option String
  opacity : Option ℝ
  waveAmp : Option ℝ
  waveFreq : Option ℝ
  shape : Option String

/-- `icon` sub-configuration of a link. -/
structure IconCfg where
  char : Option String
  count : Option ℕ
  size : Option ℝ
  color : Option String

/-- `dash` sub-configuration of a link. -/
structure DashCfg where
  length : Option ℝ
  gap : Option ℝ
  animate : Option Bool

/-- `tube` sub-configuration of a link. -/
structure TubeCfg where
  thickness : Option ℝ
  glow : Option ℝ
  color : Option String
  trail : Option Bool

/-- `curve` sub-configuration of a link. -/
structure CurveCfg where
  mode : Option Mode
  bend : Option ℝ
  noiseAmp : Option ℝ
  noiseFreq : Option ℝ

/-- A link record as consumed by `Link3D` and `SceneInner`; every field the
source reads through `?.` or `??` is an `Option`. -/
structure Link where
  id : String
  fromId : String
  toId : String
  style : Option String
  color : Option String
  width : Option ℝ
  active : Option Bool
  speed : Option ℝ
  curve : Option CurveCfg
  particles : Option ParticlesCfg
  icon : Option IconCfg
  dash : Option DashCfg
  tube : Option TubeCfg

/-- A node record as consumed by `SceneInner` when rendering links. -/
structure Node where
  id : String
  position : Vec3

/-- Props handed to `FlowParticles` for the `particles` and `wavy` styles. -/
structure FlowProps where
  curve : Bezier
  count : ℕ
  size : ℝ
  color : String
  speed : ℝ
  opacity : ℝ
  waveAmp : ℝ
  waveFreq : ℝ
  shape : String
  selected : Bool
  animate : Bool

/-- Props handed to `IconFlow` for the `icons` style. -/
structure IconProps where
  curve : Bezier
  char : String
  count : ℕ
  size : ℝ
  color : String
  speed : ℝ
  opacity : ℝ
  selected : Bool
  animate : Bool

/-- Props handed to `EpicTube` for the `epic` style. -/
structure TubeProps where
  curve : Bezier
  thickness : ℝ
  glow : ℝ
  color : String
  speed : ℝ
  trail : Bool
  selected : Bool
  widthHint : ℝ
  animate : Bool

/-- Props of a `QuadraticBezierLine` for the `solid` style. -/
structure SolidProps where
  start : Vec3
  mid : Vec3
  endPos : Vec3
  color : String
  lineWidth : ℝ
  opacity : ℝ

/-- Props of a dashed `QuadraticBezierLine` for the `dashed` style. -/
structure DashedProps where
  start : Vec3
  mid : Vec3
  endPos : Vec3
  color : String
  lineWidth : ℝ
  dashScale : ℝ
  dashSize : ℝ
  opacity : ℝ

/-- One renderable child produced by `Link3D` for a link. -/
inductive RenderPiece where
  | solid (p : SolidProps)
  | dashed (p : DashedProps)
  | flow (p : FlowProps)
  | icons (p : IconProps)
  | epic (p : TubeProps)

/-- The render output of `Link3D` (lines 2292-2440): the list of renderable
children for one link in one frame. Returns `[]` when `active` is false
(`link?.active !== false` in the source); otherwise exactly the branch
whose style string matches, with the source defaults for every prop. -/
noncomputable def renderLink3D (l : Link) (fromP toP : Vec3) (selected animate : Bool)
    (st : LinkState) : List RenderPiece :=
  let style := strOr l.style "particles"
  let color := strOr l.color "#7cf"
  let width := l.width.getD 2
  let speed := l.speed.getD 1
  if l.active = some false then []
  else
    (if style = "solid" then
      [RenderPiece.solid ⟨fromP, st.mid, toP, color, width, if selected then 1 else 0.92⟩]
    else []) ++
    (if style = "dashed" then
      [RenderPiece.dashed ⟨fromP, st.mid, toP, color, width,
        (l.dash.bind DashCfg.length).getD 1, (l.dash.bind DashCfg.gap).getD 0.25,
        if selected then 1 else 0.96⟩]
    else []) ++
    (if style = "particles" ∨ style = "wavy" then
      [RenderPiece.flow ⟨st.curve,
        (l.particles.bind ParticlesCfg.count).getD 24,
        (l.particles.bind ParticlesCfg.size).getD 0.06,
        (l.particles.bind ParticlesCfg.color).getD color,
        (if speed = 0 then 1 else speed) * (if style = "wavy" then 1.1 else 1),
        (l.particles.bind ParticlesCfg.opacity).getD 1,
        (l.particles.bind ParticlesCfg.waveAmp).getD (if style = "wavy" then 0.18 else 0.06),
        (l.particles.bind ParticlesCfg.waveFreq).getD 2,
        strOr (l.particles.bind ParticlesCfg.shape) "sphere",
        selected, animate⟩]
    else []) ++
    (if style = "icons" then
      [RenderPiece.icons ⟨st.curve,
        (l.icon.bind IconCfg.char).getD "â–¶",
        (l.icon.bind IconCfg.count).getD 4,
        (l.icon.bind IconCfg.size).getD 0.14,
        (l.icon.bind IconCfg.color).getD color,
        (if speed = 0 then 1 else speed),
        0.95, selected, animate⟩]
    else []) ++
    (if style = "epic" then
      [RenderPiece.epic ⟨st.curve,
        (l.tube.bind TubeCfg.thickness).getD 0.07,
        (l.tube.bind TubeCfg.glow).getD 1.4,
        (l.tube.bind TubeCfg.color).getD color,
        (if speed = 0 then 1 else speed),
        l.tube.bind TubeCfg.trail != some false,
        selected, width, animate⟩]
    else [])

/-- Node lookup through `nodeMap = Object.fromEntries(nodes.map(n => [n.id, n]))`
of `SceneInner`: with duplicate ids the later entry wins, hence the search
over the reversed list. -/
def nodeLookup (nodes : List Node) (i : String) : Option Node :=
  nodes.reverse.find? (fun n => n.id == i)

/-- The entry `SceneInner` produces for one link (lines 152-167): `none`
when either endpoint id is missing from the node map, otherwise the
`Link3D` output at the endpoint positions. -/
noncomputable def linkEntry (nodes : List Node) (sel : String → Bool) (animate : Bool)
    (st : String → LinkState) (l : Link) : Option (List RenderPiece) :=
  (nodeLookup nodes l.fromId).bind (fun a =>
    (nodeLookup nodes l.toId).map (fun b =>
      renderLink3D l a.position b.position (sel l.id) animate (st l.id)))

/-- The link section of `SceneInner`: one rendered entry per link whose two
endpoints resolve, in order; links with a missing endpoint contribute
nothing (`return null`). -/
noncomputable def renderLinks (nodes : List Node) (links : List Link) (sel : String → Bool)
    (animate : Bool) (st : String → LinkState) : List (List RenderPiece) :=
  links.filterMap (linkEntry nodes sel animate st)

/-- The adjustment claim C7 describes, applied to a rendered piece: stream
speed multiplied by `1.1` and the wave amplitude defaulted to `0.18`
instead of `0.06` (`amp` is the explicitly configured wave amplitude). -/
def wavyAdjust (amp : Option ℝ) (piece : RenderPiece) : RenderPiece :=
  match piece with
  | RenderPiece.flow p =>
      RenderPiece.flow { p with speed := p.speed * 1.1, waveAmp := amp.getD 0.18 }
  | other => other

/-- Helper: the square root of four. -/
theorem sqrt_four : Real.sqrt 4 = 2 := by
  rw [show (4 : ℝ) = 2 ^ 2 by norm_num]
  exact Real.sqrt_sq (by norm_num)

/-- Helper: three.js normalize maps the zero vector to itself (division by
`length() || 1`). -/
theorem Vec3.normalize_zero : Vec3.normalize Vec3.zero = Vec3.zero := by
  simp [Vec3.normalize, Vec3.length, Vec3.zero]

/-- Claim C1, amended: with animation on and `noiseAmp > 0`, the frame
callback sets the live mid and the curve control point to `baseControl`
plus the trig offset evaluated at the effective frequency
`f || 1.5` (the source substitutes `1.5` when `f = 0`); with animation off
or `noiseAmp = 0` the state is untouched, so no offset is applied. -/
theorem noisePerturber_c1 (t amp freq : ℝ) (fromP toP baseMid : Vec3) (st : LinkState) :
    (0 < amp →
      (noiseFrame true t amp freq fromP toP baseMid st).mid
          = Vec3.add baseMid (noiseOffset (t * effFreq freq) amp fromP toP) ∧
      (noiseFrame true t amp freq fromP toP baseMid st).curve.v1
          = Vec3.add baseMid (noiseOffset (t * effFreq freq) amp fromP toP)) ∧
    noiseFrame false t amp freq fromP toP baseMid st = st ∧
    noiseFrame true t 0 freq fromP toP baseMid st = st := by
  refine ⟨fun h => ?_, ?_, ?_⟩
  · simp [noiseFrame, h, noiseOffset, effFreq, Vec3.add]
  · simp [noiseFrame]
  · simp [noiseFrame]

/-- Witness for C1: the amended statement evaluated at `t = 1`, `amp = 1`,
`freq = 2` and zero vectors. -/
theorem noisePerturber_c1_witness :
    (noiseFrame true 1 1 2 Vec3.zero Vec3.zero Vec3.zero
        ⟨Vec3.zero, Vec3.zero, Vec3.zero, Vec3.zero⟩).mid
      = Vec3.add Vec3.zero (noiseOffset (1 * effFreq 2) 1 Vec3.zero Vec3.zero) :=
  (noisePerturber_c1 1 1 2 Vec3.zero Vec3.zero Vec3.zero
    ⟨Vec3.zero, Vec3.zero, Vec3.zero, Vec3.zero⟩).1 (by norm_num) |>.1

/-- Counterexample for C1 as frozen: at configured frequency `f = 0` the
claimed formula gives offset `sin(0 + from.x) * amp = 0`, but the code
substitutes `1.5` and produces `sin(1.695) ≠ 0` on the x component. -/
theorem noisePerturber_c1_cex :
    (noiseFrame true 1 1 0 Vec3.zero Vec3.zero Vec3.zero
        ⟨Vec3.zero, Vec3.zero, Vec3.zero, Vec3.zero⟩).mid.x
      ≠ Real.sin (1 * 0 * 1.13 + Vec3.zero.x) * 1 := by
  have hpi : (1.695 : ℝ) < Real.pi := by
    have := Real.pi_gt_d6
    linarith
  have hs : 0 < Real.sin 1.695 := Real.sin_pos_of_pos_of_lt_pi (by norm_num) hpi
  simp only [noiseFrame, noiseOffset, effFreq, Vec3.add, Vec3.zero]
  norm_num
  intro heq
  rw [show (339 / 200 : ℝ) = 1.695 by norm_num] at heq
  linarith

/-- Claim C10: with the animate flag false the per-frame noise callback
returns the state unchanged; in particular a control point perturbed by an
earlier animated frame keeps its last perturbed value across frozen
frames instead of being reset to the base control. -/
theorem frozenFrame_c10 (t t2 amp freq : ℝ) (fromP toP baseMid : Vec3) (st : LinkState) :
    noiseFrame false t amp freq fromP toP baseMid st = st ∧
    noiseFrame false t2 amp freq fromP toP baseMid
        (noiseFrame true t amp freq fromP toP baseMid st)
      = noiseFrame true t amp freq fromP toP baseMid st := by
  constructor <;> simp [noiseFrame]

/-- Claim C2, amended: the EpicTube emissive intensity equals
`(baseGlow || 1.4) * pulse(t) * (selected ? 1.2 : 1)` — the source
substitutes `1.4` when `baseGlow = 0` — and for `baseGlow ≥ 0` it lies
within `[0.70, 1.00]` times the effective glow times the selection
factor. -/
theorem epicTube_c2 (animate : Bool) (t speed glow : ℝ) (selected : Bool) :
    emissiveIntensity animate t speed glow selected
        = effGlow glow * pulse animate t speed * selFactor selected ∧
    (0 ≤ glow →
      0.70 * (effGlow glow * selFactor selected)
          ≤ emissiveIntensity animate t speed glow selected ∧
      emissiveIntensity animate t speed glow selected
          ≤ 1.00 * (effGlow glow * selFactor selected)) := by
  have heq : emissiveIntensity animate t speed glow selected
      = effGlow glow * pulse animate t speed * selFactor selected := by
    simp [emissiveIntensity, effGlow, pulse, selFactor]
  refine ⟨heq, fun hg => ?_⟩
  have hp : 0.70 ≤ pulse animate t speed ∧ pulse animate t speed ≤ 1 := by
    cases animate with
    | false => norm_num [pulse]
    | true =>
        have h1 := Real.neg_one_le_sin (t * speed * 1.7)
        have h2 := Real.sin_le_one (t * speed * 1.7)
        constructor <;> simp [pulse] <;> nlinarith
  have hge : 0 < effGlow glow := by
    by_cases h0 : glow = 0
    · norm_num [effGlow, h0]
    · have : 0 < glow := lt_of_le_of_ne hg (Ne.symm h0)
      simpa [effGlow, h0] using this
  have hsf : 0 < selFactor selected := by
    cases selected <;> norm_num [selFactor]
  rw [heq]
  constructor
  · have := mul_nonneg (mul_nonneg (sub_nonneg.2 hp.1) hge.le) hsf.le
    nlinarith
  · have := mul_nonneg (mul_nonneg (sub_nonneg.2 hp.2) hge.le) hsf.le
    nlinarith

/-- Witness for C2: the amended statement at `glow = 2`, not animated, not
selected. -/
theorem epicTube_c2_witness :
    emissiveIntensity false 0 1 2 false
        = effGlow 2 * pulse false 0 1 * selFactor false ∧
    (0.70 * (effGlow 2 * selFactor false) ≤ emissiveIntensity false 0 1 2 false ∧
      emissiveIntensity false 0 1 2 false ≤ 1.00 * (effGlow 2 * selFactor false)) :=
  ⟨(epicTube_c2 false 0 1 2 false).1, (epicTube_c2 false 0 1 2 false).2 (by norm_num)⟩

/-- Counterexample for C2 as frozen: at `baseGlow = 0` the claimed product
`baseGlow * pulse * selFactor` is `0`, but the code emits `1.4`. -/
theorem epicTube_c2_cex :
    emissiveIntensity false 0 1 0 false ≠ 0 * pulse false 0 1 * selFactor false := by
  norm_num [emissiveIntensity, effGlow, pulse, selFactor]

/-- Claim C3, amended: while animating with `dash.animate` not `false`, the
dash offset is decremented by `(speed || 1) * deltaTime * 0.8`: exactly
`speed * deltaTime * 0.8` when `speed ≠ 0`, but `deltaTime * 0.8` when
`speed = 0` (the source substitutes `1`); the offset is unchanged when
animation is off or `dash.animate` is `false`. -/
theorem dashLine_c3 (dashAnimate : Option Bool) (speed delta offset : ℝ) :
    (dashAnimate ≠ some false → speed ≠ 0 →
      dashFrame true "dashed" dashAnimate speed delta offset
        = offset - speed * delta * 0.8) ∧
    (dashAnimate ≠ some false →
      dashFrame true "dashed" dashAnimate 0 delta offset = offset - delta * 0.8) ∧
    (∀ style : String, dashFrame false style dashAnimate speed delta offset = offset) ∧
    (dashAnimate = some false →
      dashFrame true "dashed" dashAnimate speed delta offset = offset) := by
  refine ⟨fun hda hs => ?_, fun hda => ?_, fun style => ?_, fun hda => ?_⟩
  · simp [dashFrame, hda, hs, mul_assoc]
  · simp [dashFrame, hda, one_mul]
  · simp [dashFrame]
  · simp [dashFrame, hda]

/-- Witness for C3: one animated dashed frame at `speed = 2`, `delta = 1`
decrements the offset by `1.6`. -/
theorem dashLine_c3_witness :
    dashFrame true "dashed" none 2 1 0 = 0 - 2 * 1 * 0.8 :=
  (dashLine_c3 none 2 1 0).1 (fun h => Option.noConfusion h) (by norm_num)

/-- Counterexample for C3 as frozen: a dashed link with `speed = 0` does
not keep a constant dash offset; one animated frame moves it by `-0.8`. -/
theorem dashLine_c3_cex : dashFrame true "dashed" none 0 1 0 ≠ 0 := by
  have h : (none : Option Bool) ≠ some false := by decide
  norm_num [dashFrame, h]

/-- Claim C4, amended: when the direction is parallel to world up (zero
cross product) the normalized side vector is the zero vector — not a
fallback perpendicular — so the control point is the midpoint plus only
the world-up component (`0.6`, `0.45` or `0` by mode); the result is a
well-defined finite vector and nothing is thrown. -/
theorem curveSolver_c4 (a b : Vec3) (mode : Mode) (bend : ℝ)
    (h : Vec3.cross (Vec3.sub b a) UP = Vec3.zero) :
    Link3D.midpoint a b mode bend
      = Vec3.addScaled (Vec3.lerp a b 0.5) UP
          (Vec3.length (Vec3.sub b a) * bend * liftCoef mode) := by
  by_cases hg : bend = 0 ∨ mode = Mode.straight
  · rcases hg with h0 | hm
    · subst h0
      simp [Link3D.midpoint, Vec3.addScaled]
    · subst hm
      simp [Link3D.midpoint, liftCoef, Vec3.addScaled]
  · simp only [Link3D.midpoint]
    rw [if_neg hg]
    cases mode with
    | straight => exact absurd (Or.inr rfl) hg
    | up => simp [liftCoef]
    | side =>
        rw [h, Vec3.normalize_zero]
        simp [liftCoef, Vec3.addScaled, Vec3.zero, UP]
    | arc =>
        rw [h, Vec3.normalize_zero]
        simp [liftCoef, Vec3.addScaled, Vec3.zero, UP]

/-- Witness for C4: a vertical link in `arc` mode bends only upward. -/
theorem curveSolver_c4_witness :
    Link3D.midpoint ⟨0, 0, 0⟩ ⟨0, 2, 0⟩ Mode.arc 0.3
      = Vec3.addScaled (Vec3.lerp ⟨0, 0, 0⟩ ⟨0, 2, 0⟩ 0.5) UP
          (Vec3.length (Vec3.sub ⟨0, 2, 0⟩ ⟨0, 0, 0⟩) * 0.3 * liftCoef Mode.arc) :=
  curveSolver_c4 ⟨0, 0, 0⟩ ⟨0, 2, 0⟩ Mode.arc 0.3
    (by simp [Vec3.cross, Vec3.sub, UP, Vec3.zero])

/-- Counterexample for C4 as frozen: for a vertical link in `side` mode the
code leaves the control point at the midpoint, while the claimed world-X
fallback perpendicular would shift it by `0.36` along x. -/
theorem curveSolver_c4_cex :
    Link3D.midpoint ⟨0, 0, 0⟩ ⟨0, 2, 0⟩ Mode.side 0.3
      ≠ midpointSpecFallback ⟨0, 0, 0⟩ ⟨0, 2, 0⟩ Mode.side 0.3 := by
  simp only [Link3D.midpoint, midpointSpecFallback, Vec3.lerp, Vec3.sub, Vec3.cross,
    Vec3.length, Vec3.addScaled, Vec3.normalize, Vec3.smul, UP, worldX, Vec3.zero]
  norm_num [sqrt_four]
  rw [if_neg (show ¬Mode.side = Mode.straight by decide)]
  simp [Vec3.mk.injEq]
  norm_num

/-- Claim C5: for `A = (0,0,0)`, `B = (2,0,0)`, mode `up`, bend `0.3`, the
curve solver returns the control point `(1, 0.36, 0)`. -/
theorem curveSolver_c5 :
    Link3D.midpoint ⟨0, 0, 0⟩ ⟨2, 0, 0⟩ Mode.up 0.3 = ⟨1, 0.36, 0⟩ := by
  simp only [Link3D.midpoint, Vec3.lerp, Vec3.sub, Vec3.length, Vec3.addScaled, UP]
  norm_num [sqrt_four]
  decide

/-- Claim C6: for every pair of endpoints and every mode, if `bend = 0` or
the mode is `straight` the control point is the midpoint
`lerp(A, B, 0.5)`. -/
theorem curveSolver_c6 (a b : Vec3) (mode : Mode) (bend : ℝ)
    (h : bend = 0 ∨ mode = Mode.straight) :
    Link3D.midpoint a b mode bend = Vec3.lerp a b 0.5 := by
  simp [Link3D.midpoint, h]

/-- Witness for C6: `arc` mode with `bend = 0` returns the midpoint. -/
theorem curveSolver_c6_witness :
    Link3D.midpoint ⟨0, 0, 0⟩ ⟨3, 4, 5⟩ Mode.arc 0 = Vec3.lerp ⟨0, 0, 0⟩ ⟨3, 4, 5⟩ 0.5 :=
  curveSolver_c6 ⟨0, 0, 0⟩ ⟨3, 4, 5⟩ Mode.arc 0 (Or.inl rfl)

/-- Claim C7: rendering a link with style `wavy` yields exactly the
`particles` output with the stream speed multiplied by `1.1` and the wave
amplitude defaulted to `0.18` instead of `0.06` (an explicitly configured
`waveAmp` is kept). -/
theorem linkRenderer_c7 (l : Link) (fromP toP : Vec3) (selected animate : Bool)
    (st : LinkState) :
    renderLink3D { l with style := some "wavy" } fromP toP selected animate st
      = (renderLink3D { l with style := some "particles" } fromP toP selected animate st).map
          (wavyAdjust (l.particles.bind ParticlesCfg.waveAmp)) := by
  by_cases h : l.active = some false
  · simp [renderLink3D, h]
  · simp +decide [renderLink3D, h, strOr, wavyAdjust, mul_one]

/-- Claim C8: a link whose `active` field is `false` produces zero
renderable output, whatever its style and whatever the per-frame state. -/
theorem linkRenderer_c8 (l : Link) (fromP toP : Vec3) (selected animate : Bool)
    (st : LinkState) (h : l.active = some false) :
    renderLink3D l fromP toP selected animate st = [] := by
  simp [renderLink3D, h]

/-- Witness for C8: a concrete inactive link renders nothing. -/
theorem linkRenderer_c8_witness :
    renderLink3D
        (Link.mk "l1" "a" "b" none none none (some false) none none none none none none)
        Vec3.zero Vec3.zero false true ⟨Vec3.zero, Vec3.zero, Vec3.zero, Vec3.zero⟩ = [] :=
  linkRenderer_c8
    (Link.mk "l1" "a" "b" none none none (some false) none none none none none none)
    Vec3.zero Vec3.zero false true ⟨Vec3.zero, Vec3.zero, Vec3.zero, Vec3.zero⟩ rfl

/-- Claim C9: a link whose from or to node id is absent from the node set
yields no entry, and the frame output over the whole link list is exactly
the output with that link removed — other links are unaffected. -/
theorem sceneInner_c9 (nodes : List Node) (pre post : List Link) (l : Link)
    (sel : String → Bool) (animate : Bool) (st : String → LinkState)
    (h : nodeLookup nodes l.fromId = none ∨ nodeLookup nodes l.toId = none) :
    linkEntry nodes sel animate st l = none ∧
    renderLinks nodes (pre ++ l :: post) sel animate st
      = renderLinks nodes (pre ++ post) sel animate st := by
  have he : linkEntry nodes sel animate st l = none := by
    rcases h with h1 | h2
    · simp [linkEntry, h1]
    · cases hf : nodeLookup nodes l.fromId <;> simp [linkEntry, hf, h2]
  refine ⟨he, ?_⟩
  simp [renderLinks, List.filterMap_append, List.filterMap_cons, he]

/-- Witness for C9: a link over an empty node set is skipped and the frame
output equals the output of the empty link list. -/
theorem sceneInner_c9_witness :
    linkEntry [] (fun _ => false) true
        (fun _ => ⟨Vec3.zero, Vec3.zero, Vec3.zero, Vec3.zero⟩)
        (Link.mk "l2" "a" "b" none none none none none none none none none none)
      = none ∧
    renderLinks []
        [Link.mk "l2" "a" "b" none none none none none none none none none none]
        (fun _ => false) true (fun _ => ⟨Vec3.zero, Vec3.zero, Vec3.zero, Vec3.zero⟩)
      = renderLinks [] [] (fun _ => false) true
          (fun _ => ⟨Vec3.zero, Vec3.zero, Vec3.zero, Vec3.zero⟩) :=
  sceneInner_c9 [] [] []
    (Link.mk "l2" "a" "b" none none none none none none none none none none)
    (fun _ => false) true (fun _ => ⟨Vec3.zero, Vec3.zero, Vec3.zero, Vec3.zero⟩)
    (Or.inl rfl)
